import Mathlib

/-!
Shallow embedding of the profile acquisition and merge engine in
src/internal/driver/fetch.go (package driver of the pprof tool), together
with theorems checking the natural-language specification against it.

Modelling conventions:
* Go errors are modelled by their message strings (`Err`); a nil error is
  `none : Option Err`, a nil pointer is `none : Option Profile`.
* `time.Duration` values are integer nanoseconds (`Int`); `time.Second`
  is the constant `second`.
* Go maps of type `map[string][]src` (plugin.MappingSources) are modelled
  as total functions returning `[]` on absent keys; a nil map is the
  everywhere-empty function.
* External collaborators declared out of scope by the engine
  (profile.Parse/Merge/Scale/CheckValid, measurement.ScaleProfiles,
  plugin.Fetcher, plugin.ObjTool, net/url parsing, strconv.ParseInt,
  filepath.Base/Glob, os.MkdirAll, the symbolizer, temp-file creation and
  writing) are capability parameters.
* Writes to the user-feedback sink (plugin.UI) are side effects with no
  influence on control flow or data; the embedding drops them.
* Goroutine fan-out in concurrentGrab writes each result into its own
  slot and joins before any result is read, so its observable behaviour
  is that of mapping the per-task fetch over the task list.
-/

namespace PprofFetch

/-- Go errors, modelled by their message strings. -/
abbrev Err := String

/-- One provenance entry: the anonymous struct {Source string; Start uint64}
built by collectMappingSources. -/
structure MapSrcEntry where
  source : String
  start : Nat
deriving Repr, DecidableEq

/-- plugin.MappingSources = map[string][]src, modelled as a total function;
absent keys map to []. A nil map is `MappingSources.empty`. -/
def MappingSources := String → List MapSrcEntry

/-- The nil / empty provenance map. -/
def MappingSources.empty : MappingSources := fun _ => []

/-- The fields of profile.Mapping read or written by this file:
File, BuildID, Start, Limit, Offset. -/
structure Mapping where
  file : String := ""
  buildID : String := ""
  start : Nat := 0
  limit : Nat := 0
  offset : Nat := 0
deriving Repr, DecidableEq

/-- The profile.Profile fields this file touches: the mapping list and the
sample-type names (SampleType[i].Type, used when naming a saved copy).
All other profile content is behind capability parameters. -/
structure Profile where
  mapping : List Mapping := []
  sampleType : List String := []
deriving Repr, DecidableEq

/-- The profileSource struct fields set up by fetchProfiles: one fetch task.
The result slots (p, msrc, remote, err) are modelled by `FetchOut`. -/
structure ProfileSource where
  addr : String := ""
  scale : Int := 1
deriving Repr, DecidableEq

/-- The result slots of one fetch task, as filled in by grabProfile:
(p *profile.Profile, msrc plugin.MappingSources, remote bool, err error). -/
structure FetchOut where
  p : Option Profile := none
  msrc : MappingSources := MappingSources.empty
  remote : Bool := false
  err : Option Err := none

/-- The five return values of chunkedGrab / concurrentGrab:
(*profile.Profile, plugin.MappingSources, bool, int, error). -/
structure GrabResult where
  p : Option Profile
  msrc : MappingSources
  save : Bool
  count : Nat
  err : Option Err

/-- combineProfiles, provenance part: the nested loop
`for _, ms := range msrcs { for m, s := range ms { msrc[m] = append(msrc[m], s...) } }`.
Per key, entries are appended in the order the input maps are listed. -/
def combineSources (msrcs : List MappingSources) : MappingSources :=
  msrcs.foldl (fun acc ms => fun k => acc k ++ ms k) MappingSources.empty

/-- combineProfiles: scale all profiles (measurement.ScaleProfiles), merge
them (profile.Merge) — both external capabilities — then union the
provenance maps. The profile slice holds pointers, hence `Option Profile`. -/
def combineProfiles (scaleProfiles : List (Option Profile) → Option Err)
    (mergeProfiles : List (Option Profile) → Except Err Profile)
    (profiles : List (Option Profile)) (msrcs : List MappingSources) :
    Except Err (Profile × MappingSources) :=
  match scaleProfiles profiles with
  | some e => .error e
  | none =>
    match mergeProfiles profiles with
    | .error e => .error e
    | .ok p => .ok (p, combineSources msrcs)

/-- concurrentGrab: run every task's grabProfile (the goroutines join before
any result is read, so this is a map), drop failed tasks, and either return
the explicit empty result or combine the surviving fragments. -/
def concurrentGrab (grab : ProfileSource → FetchOut)
    (scaleProfiles : List (Option Profile) → Option Err)
    (mergeProfiles : List (Option Profile) → Except Err Profile)
    (sources : List ProfileSource) : GrabResult :=
  let outs := sources.map grab
  let kept := outs.filter (fun o => o.err.isNone)
  let save := kept.any (fun o => o.remote)
  let profiles := kept.map (fun o => o.p)
  let msrcs := kept.map (fun o => o.msrc)
  if profiles.isEmpty then
    { p := none, msrc := MappingSources.empty, save := false, count := 0, err := none }
  else
    match combineProfiles scaleProfiles mergeProfiles profiles msrcs with
    | .error e =>
        { p := none, msrc := MappingSources.empty, save := false, count := 0, err := some e }
    | .ok (p, msrc) =>
        { p := some p, msrc := msrc, save := save, count := profiles.length, err := none }

/-- const chunkSize = 64 in chunkedGrab. -/
def chunkSize : Nat := 64

/-- The chunk decomposition performed by chunkedGrab's loop
`for start := 0; start < len(sources); start += chunkSize`:
consecutive slices sources[start:start+chunkSize]. -/
def chunks : List ProfileSource → List (List ProfileSource)
  | [] => []
  | s :: rest => ((s :: rest).take chunkSize) :: chunks ((s :: rest).drop chunkSize)
termination_by l => l.length
decreasing_by
  simp only [List.length_drop, List.length_cons, chunkSize]
  omega

/-- The running state of chunkedGrab's loop: p, msrc, save, count. -/
structure ChunkAcc where
  p : Option Profile
  msrc : MappingSources
  save : Bool
  count : Nat

/-- The body of chunkedGrab's loop over chunks, with the per-chunk fetch and
the profile combiner abstracted; chunkedGrab instantiates them with
concurrentGrab and combineProfiles. Mirrors the Go switch:
an error aborts with (nil, nil, false, 0, err); a nil chunk profile is
skipped; the first chunk result is adopted; later ones are merged. -/
def chunkedLoop (conc : List ProfileSource → GrabResult)
    (combine : List (Option Profile) → List MappingSources →
      Except Err (Profile × MappingSources))
    (acc : ChunkAcc) : List (List ProfileSource) → GrabResult
  | [] => { p := acc.p, msrc := acc.msrc, save := acc.save, count := acc.count, err := none }
  | c :: rest =>
    let r := conc c
    match r.err with
    | some e =>
        { p := none, msrc := MappingSources.empty, save := false, count := 0, err := some e }
    | none =>
      match r.p with
      | none => chunkedLoop conc combine acc rest
      | some chunkP =>
        match acc.p with
        | none => chunkedLoop conc combine ⟨some chunkP, r.msrc, r.save, r.count⟩ rest
        | some p0 =>
          match combine [some p0, some chunkP] [acc.msrc, r.msrc] with
          | .error e =>
              { p := none, msrc := MappingSources.empty, save := false, count := 0,
                err := some e }
          | .ok (p1, m1) =>
              chunkedLoop conc combine
                ⟨some p1, m1, acc.save || r.save, acc.count + r.count⟩ rest

/-- chunkedGrab: fetch the sources in chunks of at most chunkSize, merging
chunk results sequentially. -/
def chunkedGrab (grab : ProfileSource → FetchOut)
    (scaleProfiles : List (Option Profile) → Option Err)
    (mergeProfiles : List (Option Profile) → Except Err Profile)
    (sources : List ProfileSource) : GrabResult :=
  chunkedLoop (concurrentGrab grab scaleProfiles mergeProfiles)
    (combineProfiles scaleProfiles mergeProfiles)
    ⟨none, MappingSources.empty, false, 0⟩ (chunks sources)

/-- time.Second in nanoseconds (time.Duration is int64 nanoseconds). -/
def second : Int := 1000000000

/-- The source struct fields this file reads: Sources, Base, Seconds,
Timeout, ExecName, BuildID, Symbolize. -/
structure SourceCfg where
  sources : List String := []
  base : List String := []
  seconds : Int := 0
  timeout : Int := 0
  execName : String := ""
  buildID : String := ""
  symbolize : String := ""

/-- The candidate list construction by fetchProfiles: numerator addresses
with scale +1, then base addresses with scale -1 (Go uses float64 scales;
only the integers +1 and -1 ever occur). -/
def makeSources (s : SourceCfg) : List ProfileSource :=
  s.sources.map (fun a => { addr := a, scale := 1 }) ++
    s.base.map (fun a => { addr := a, scale := -1 })

/-- The net/url URL fields this file reads: Scheme, Host, and the value of
the single query parameter it touches (Query().Get("seconds"), where an
absent parameter reads as ""). u.IsAbs() is (scheme not empty). -/
structure GoURL where
  scheme : String := ""
  host : String := ""
  secondsParam : String := ""
deriving Repr, DecidableEq

/-- setTmpDir's loop over []string{os.Getenv("HOME") + "/pprof", os.TempDir()}:
return the first directory that os.MkdirAll accepts. -/
def tryTmpDirs (mkdirAll : String → Option Err) : List String → Except Err String
  | [] => .error "failed to identify temp dir"
  | d :: rest =>
    match mkdirAll d with
    | none => .ok d
    | some _ => tryTmpDirs mkdirAll rest

/-- setTmpDir: the PPROF_TMPDIR override, when set, is returned as-is;
otherwise the first of HOME/pprof and the system temp dir that MkdirAll
accepts; error if neither does. Environment reads are parameters. -/
def setTmpDir (envTmp home osTmp : String) (mkdirAll : String → Option Err) :
    Except Err String :=
  if envTmp ≠ "" then .ok envTmp
  else tryTmpDirs mkdirAll [home ++ "/pprof", osTmp]

/-- collectMappingSources, per mapping: the provenance key is the build ID
if present, else the file; when both are empty the source address itself
becomes the key and is also written into the mapping's File field (Go
mutates the mapping in place). Returns (key, entry, updated mapping). -/
def collectOneMapping (source : String) (m : Mapping) :
    String × MapSrcEntry × Mapping :=
  let entry : MapSrcEntry := { source := source, start := m.start }
  let key := if m.buildID ≠ "" then m.buildID else m.file
  if key = "" then (source, entry, { m with file := source })
  else (key, entry, m)

/-- collectMappingSources' loop over p.Mapping: build the provenance map
(appending per key in mapping order) and the list of updated mappings. -/
def collectLoop (source : String) : List Mapping → MappingSources × List Mapping
  | [] => (MappingSources.empty, [])
  | m :: rest =>
    let (key, entry, m1) := collectOneMapping source m
    let (ms, rest1) := collectLoop source rest
    (fun k => (if k = key then [entry] else []) ++ ms k, m1 :: rest1)

/-- collectMappingSources: provenance map for profile p fetched from source,
together with the profile after its in-place File updates. -/
def collectMappingSources (p : Profile) (source : String) :
    MappingSources × Profile :=
  let (ms, mapping1) := collectLoop source p.mapping
  (ms, { p with mapping := mapping1 })

/-- unsourceMappings, per mapping: clear File when the mapping has no build
ID and File parses (capability for url.Parse) as an absolute URL
(u.IsAbs() = scheme not empty). -/
def unsourceMapping (urlParse : String → Option GoURL) (m : Mapping) : Mapping :=
  if m.buildID = "" then
    match urlParse m.file with
    | some u => if u.scheme ≠ "" then { m with file := "" } else m
    | none => m
  else m

/-- unsourceMappings: iterate unsourceMapping over the profile's mappings. -/
def unsourceMappings (urlParse : String → Option GoURL) (p : Profile) : Profile :=
  { p with mapping := p.mapping.map (unsourceMapping urlParse) }

/-- An open object file as used by locateBinaries: only its BuildID()
is read. -/
structure ObjFileM where
  buildID : String
deriving Repr, DecidableEq

/-- The external capabilities and environment inputs of locateBinaries:
obj.Open (name, start, limit, offset; None models an open error),
filepath.Glob on a directory (modelling Glob(dir + "/*"); None models a
Glob error), filepath.Base, and the already-split PPROF_BINARY_PATH
search path list. -/
structure LocateDeps where
  objOpen : String → Nat → Nat → Nat → Option ObjFileM
  glob : String → Option (List String)
  basef : String → String
  searchPaths : List String

/-- filepath.Join on two already-clean components. -/
def pathJoin (a b : String) : String :=
  if a = "" then b else if b = "" then a else a ++ "/" ++ b

/-- The fileNames list locateBinaries builds for one search-path entry:
Join(path, BuildID, baseName) and the Glob matches under Join(path, BuildID)
when a build ID is known, then Join(path, baseName) when a base name is
known. (Join drops empty components, so with an empty baseName the first
candidate is Join(path, BuildID).) -/
def candidateNames (d : LocateDeps) (path : String) (m : Mapping)
    (baseName : String) : List String :=
  (if m.buildID ≠ "" then
    pathJoin (pathJoin path m.buildID) baseName ::
      (match d.glob (pathJoin path m.buildID) with
       | some found => found
       | none => [])
  else []) ++
  (if baseName ≠ "" then [pathJoin path baseName] else [])

/-- The inner candidate loop of locateBinaries: the first name that opens
and does not fail the build-ID check is accepted (a mismatch is reported
to the sink and skipped; the search continues). -/
def searchCandidates (d : LocateDeps) (m : Mapping) : List String → Option String
  | [] => none
  | name :: rest =>
    match d.objOpen name m.start m.limit m.offset with
    | some f =>
      if m.buildID ≠ "" ∧ m.buildID ≠ f.buildID then searchCandidates d m rest
      else some name
    | none => searchCandidates d m rest

/-- The override block at the top of locateBinaries' mapping loop: for the
first mapping only, ExecName and BuildID from the source configuration
replace the mapping's File and BuildID when non-empty. -/
def applyOverrides (isFirst : Bool) (s : SourceCfg) (m : Mapping) : Mapping :=
  if isFirst then
    let m1 := if s.execName ≠ "" then { m with file := s.execName } else m
    if s.buildID ≠ "" then { m1 with buildID := s.buildID } else m1
  else m

/-- One iteration of locateBinaries' mapping loop: apply overrides, compute
the base name, try every candidate under every search path in order, and
rewrite File to the first accepted candidate (or leave the mapping as it
stands when none is accepted). -/
def locateMapping (d : LocateDeps) (s : SourceCfg) (isFirst : Bool)
    (m : Mapping) : Mapping :=
  let m2 := applyOverrides isFirst s m
  let baseName := if m2.file ≠ "" then d.basef m2.file else ""
  match searchCandidates d m2
      (d.searchPaths.flatMap (fun path => candidateNames d path m2 baseName)) with
  | some name => { m2 with file := name }
  | none => m2

/-- locateBinaries: run locateMapping over every mapping of the profile
(index 0 is the executable and receives the configuration overrides). -/
def locateBinaries (d : LocateDeps) (s : SourceCfg) (p : Profile) : Profile :=
  { p with mapping := p.mapping.mapIdx (fun i m => locateMapping d s (i == 0) m) }

/-- The capabilities grabProfile composes. `fetcher` is the optional
plugin.Fetcher (None = nil interface); its Fetch may return a nil profile
with a nil error. `fetchFn` is the built-in fetch function
(HTTP/file/perf-capture), whose contract yields a non-nil profile exactly
when it does not error; the non-empty source string marks a network fetch.
`checkValid` is profile.CheckValid, `scaleBy` is profile.Scale (only the
factors +1 and -1 occur), `loc` feeds locateBinaries. -/
structure GrabDeps where
  fetcher : Option (String → Int → Int → Option Profile × String × Option Err)
  fetchFn : String → Int → Int → Except Err (Profile × String)
  checkValid : Profile → Option Err
  scaleBy : Int → Profile → Profile
  loc : LocateDeps

/-- grabProfile: try the injected fetcher first; an error from it returns
immediately (with whatever profile pointer it produced and the named
returns msrc = nil, remote = false). Only when no error was reported and
the profile is still nil does the built-in fetch run. Then validate,
scale, locate binaries and, for a network fetch (src non-empty), collect
mapping provenance and flag the task remote. -/
def grabProfile (d : GrabDeps) (s : SourceCfg) (source : String) (scale : Int) :
    FetchOut :=
  let duration := s.seconds * second
  let timeout := s.timeout * second
  let step1 : Option Profile × String × Option Err :=
    match d.fetcher with
    | some f => f source duration timeout
    | none => (none, "", none)
  match step1 with
  | (p0, _, some e) => { p := p0, msrc := MappingSources.empty, remote := false, err := some e }
  | (p0, src0, none) =>
    let step2 : Except Err (Profile × String) :=
      match p0 with
      | none => d.fetchFn source duration timeout
      | some p => .ok (p, src0)
    match step2 with
    | .error e => { p := none, msrc := MappingSources.empty, remote := false, err := some e }
    | .ok (p1, src1) =>
      match d.checkValid p1 with
      | some e =>
          { p := some p1, msrc := MappingSources.empty, remote := false, err := some e }
      | none =>
        let p2 := d.scaleBy scale p1
        let p3 := locateBinaries d.loc s p2
        if src1 ≠ "" then
          let (msrc, p4) := collectMappingSources p3 src1
          { p := some p4, msrc := msrc, remote := true, err := none }
        else
          { p := some p3, msrc := MappingSources.empty, remote := false, err := none }

/-- adjustURL: recognise the source as a URL (url.Parse, retried with an
http:// prefix for host:port/path forms; both parses are one capability),
override or derive the seconds query parameter, and compute the retrieval
timeout: a caller-supplied positive timeout wins; otherwise duration +
duration/2 for a positive (possibly URL-derived) duration, else 60
seconds. Division is Go int64 division; every operand divided here is
positive, where it agrees with Lean's. `urlToString` renders the adjusted
URL (u.String() after values.Encode()); `parseInt32` is
strconv.ParseInt(s, 10, 32), None on a parse error. -/
def adjustURL (urlParse : String → Option GoURL) (urlToString : GoURL → String)
    (parseInt32 : String → Option Int)
    (source : String) (duration timeout : Int) : String × Int :=
  let u0 : Option GoURL :=
    match urlParse source with
    | some u =>
      if u.host = "" ∧ u.scheme ≠ "" ∧ u.scheme ≠ "file" then
        urlParse ("http://" ++ source)
      else some u
    | none => urlParse ("http://" ++ source)
  match u0 with
  | none => ("", 0)
  | some u =>
    if u.host = "" then ("", 0)
    else
      let ud :=
        if duration > 0 then
          ({ u with secondsParam := toString (duration / second) }, duration)
        else if u.secondsParam ≠ "" then
          match parseInt32 u.secondsParam with
          | some us => (u, us * second)
          | none => (u, duration)
        else (u, duration)
      let timeout1 :=
        if timeout ≤ 0 then
          if ud.2 > 0 then ud.2 + ud.2 / 2 else 60 * second
        else timeout
      (urlToString ud.1, timeout1)

/-- The ResponseHeaderTimeout set by the httpGet wrapper around the
computed retrieval timeout: a fixed 5-second network-level grace margin. -/
def httpGetHeaderTimeout (timeout : Int) : Int := timeout + 5 * second

/-- The file-name stem fetchProfiles builds for a saved profile copy:
"pprof." then the base name of the first mapping's file (when present)
then every sample type name, each dot-terminated. `basef` is
filepath.Base. -/
def saveStem (basef : String → String) (p : Profile) : String :=
  let s0 := "pprof."
  let s1 :=
    match p.mapping with
    | m :: _ => if m.file ≠ "" then s0 ++ basef m.file ++ "." else s0
    | [] => s0
  p.sampleType.foldl (fun acc t => acc ++ t ++ ".") s1

/-- The capabilities of fetchProfiles beyond those of grabProfile:
measurement.ScaleProfiles and profile.Merge for the combiner, the
symbolizer (which rewrites the profile in place), p.RemoveUninteresting,
url.Parse for unsourceMappings, the environment reads of setTmpDir,
newTempFile (returning the created file's name) and p.Write. -/
structure FetchProfilesDeps where
  gd : GrabDeps
  scaleProfiles : List (Option Profile) → Option Err
  mergeProfiles : List (Option Profile) → Except Err Profile
  symbolize : String → MappingSources → Profile → Except Err Profile
  removeUninteresting : Profile → Profile
  urlParse : String → Option GoURL
  envTmp : String
  home : String
  osTmp : String
  mkdirAll : String → Option Err
  newTemp : String → String → String → Except Err String
  writeProfile : String → Profile → Option Err

/-- fetchProfiles: build the task list, run the chunked grab, fail on a
grab error or when no profile was fetched, then symbolize, strip
uninteresting data, clear synthetic mapping sources, save a copy when any
source was remote (only a setTmpDir failure is fatal there; temp-file and
write failures are reported and ignored) and run the final validity
check. A nil aggregate with a non-zero count cannot occur (count is
positive only when a chunk contributed a profile); Go would dereference
nil there, modelled as an explicit error. -/
def fetchProfiles (d : FetchProfilesDeps) (s : SourceCfg) : Except Err Profile :=
  let sources := makeSources s
  let r := chunkedGrab (fun ps => grabProfile d.gd s ps.addr ps.scale)
    d.scaleProfiles d.mergeProfiles sources
  match r.err with
  | some e => .error e
  | none =>
    if r.count = 0 then .error "failed to fetch any profiles"
    else
      match r.p with
      | none => .error "nil profile dereference"
      | some p =>
        match d.symbolize s.symbolize r.msrc p with
        | .error e => .error e
        | .ok ps1 =>
          let ps2 := d.removeUninteresting ps1
          let ps3 := unsourceMappings d.urlParse ps2
          let saved : Except Err Unit :=
            if r.save then
              match setTmpDir d.envTmp d.home d.osTmp d.mkdirAll with
              | .error e => .error e
              | .ok dir =>
                match d.newTemp dir (saveStem d.gd.loc.basef ps3) ".pb.gz" with
                | .error _ => .ok ()
                | .ok tf =>
                  match d.writeProfile tf ps3 with
                  | some _ => .ok ()
                  | none => .ok ()
            else .ok ()
          match saved with
          | .error e => .error e
          | .ok () =>
            match d.gd.checkValid ps3 with
            | some e => .error e
            | none => .ok ps3

/-! ## Concrete instantiations of the external capabilities, used to
evaluate the embedded functions on closed inputs. -/

/-- A provenance map carrying one entry under the key "libc". -/
def msA : MappingSources :=
  fun k => if k = "libc" then [{ source := "http://a:1", start := 1 }] else []

/-- A second provenance map carrying one entry under the key "libc". -/
def msB : MappingSources :=
  fun k => if k = "libc" then [{ source := "http://b:2", start := 2 }] else []

/-- A ScaleProfiles capability that accepts every profile list. -/
def scaleOK : List (Option Profile) → Option Err := fun _ => none

/-- A Merge capability that merges every profile list to the empty profile. -/
def mergeOK : List (Option Profile) → Except Err Profile := fun _ => .ok {}

/-- A Merge capability that rejects every profile list. -/
def mergeBad : List (Option Profile) → Except Err Profile :=
  fun _ => .error "incompatible sample types"

/-- A fetch task. -/
def taskA : ProfileSource := { addr := "http://h/p", scale := 1 }

/-- A per-task fetch whose result is a local (non-remote) success. -/
def grabOK : ProfileSource → FetchOut :=
  fun _ => { p := some {}, msrc := MappingSources.empty, remote := false, err := none }

/-- A per-task fetch whose result is a remote success. -/
def grabRemote : ProfileSource → FetchOut :=
  fun _ => { p := some {}, msrc := MappingSources.empty, remote := true, err := none }

/-- A per-task fetch that always fails. -/
def grabFail : ProfileSource → FetchOut :=
  fun _ => { p := none, msrc := MappingSources.empty, remote := false, err := some "refused" }

/-- A list of exactly 65 fetch tasks. -/
def tasks65 : List ProfileSource := List.replicate 65 taskA

/-- An object-inspection / path environment with one search path entry
whose only openable candidate is sp/bid/bin with build ID bid. -/
def locCE : LocateDeps :=
  { objOpen := fun name _ _ _ =>
      if name = "sp/bid/bin" then some { buildID := "bid" } else none,
    glob := fun _ => some [],
    basef := fun x => x,
    searchPaths := ["sp"] }

/-! ## Helper lemmas -/

theorem chunks_nil : chunks [] = [] := by
  simp only [chunks]

theorem chunks_cons (s : ProfileSource) (rest : List ProfileSource) :
    chunks (s :: rest) =
      ((s :: rest).take chunkSize) :: chunks ((s :: rest).drop chunkSize) := by
  simp only [chunks]

theorem chunks_short (l : List ProfileSource) (h0 : l ≠ [])
    (h64 : l.length ≤ chunkSize) : chunks l = [l] := by
  cases l with
  | nil => exact absurd rfl h0
  | cons s rest =>
    rw [chunks_cons, List.take_of_length_le h64, List.drop_eq_nil_of_le h64, chunks_nil]

theorem combineSources_pair (a b : MappingSources) :
    combineSources [a, b] = fun k => a k ++ b k := by
  funext k
  simp [combineSources, MappingSources.empty]

theorem searchCandidates_accepts_matching (d : LocateDeps) (m : Mapping)
    (names : List String) (name : String)
    (h : searchCandidates d m names = some name) :
    ∃ f, d.objOpen name m.start m.limit m.offset = some f ∧
      (m.buildID ≠ "" → f.buildID = m.buildID) := by
  induction names with
  | nil => simp [searchCandidates] at h
  | cons n rest ih =>
    rw [searchCandidates] at h
    cases ho : d.objOpen n m.start m.limit m.offset with
    | none => rw [ho] at h; exact ih h
    | some f =>
      rw [ho] at h
      dsimp only at h
      by_cases hb : m.buildID ≠ "" ∧ m.buildID ≠ f.buildID
      · rw [if_pos hb] at h
        exact ih h
      · rw [if_neg hb] at h
        injection h with hn
        subst hn
        push_neg at hb
        exact ⟨f, ho, fun hne => (hb hne).symm⟩

/-! ## Claim theorems -/

/-- C4: for every pair of provenance maps passed to combineProfiles, the
merged provenance map holds, at every key, the concatenation of the first
input's entry list with the second's — entries are neither dropped, nor
deduplicated, nor reordered, and the lengths add. -/
theorem combineProfiles_provenance_union
    (scaleProfiles : List (Option Profile) → Option Err)
    (mergeProfiles : List (Option Profile) → Except Err Profile)
    (profiles : List (Option Profile)) (ms1 ms2 : MappingSources)
    (p : Profile) (out : MappingSources)
    (h : combineProfiles scaleProfiles mergeProfiles profiles [ms1, ms2] = .ok (p, out))
    (k : String) :
    out k = ms1 k ++ ms2 k ∧
      (out k).length = (ms1 k).length + (ms2 k).length := by
  unfold combineProfiles at h
  split at h
  · exact absurd h (by simp)
  · split at h
    · exact absurd h (by simp)
    · simp only [Except.ok.injEq, Prod.mk.injEq] at h
      obtain ⟨-, hout⟩ := h
      subst hout
      rw [combineSources_pair]
      simp

theorem combineProfiles_provenance_union_witness :
    combineSources [msA, msB] "libc" = msA "libc" ++ msB "libc" ∧
      (combineSources [msA, msB] "libc").length =
        (msA "libc").length + (msB "libc").length :=
  combineProfiles_provenance_union scaleOK mergeOK [] msA msB {}
    (combineSources [msA, msB]) rfl "libc"

/-- C9: concurrentGrab returns the explicit empty result (nil profile, nil
provenance, false remote flag, count 0, no error) when no task survives,
and otherwise — when the combiner succeeds — the combined fragment, its
provenance, whether any surviving task was remote, and the number of
surviving tasks. -/
theorem concurrentGrab_partition (grab : ProfileSource → FetchOut)
    (scaleProfiles : List (Option Profile) → Option Err)
    (mergeProfiles : List (Option Profile) → Except Err Profile)
    (sources : List ProfileSource) (kept : List FetchOut)
    (hkept : kept = (sources.map grab).filter (fun o => o.err.isNone)) :
    (kept = [] → concurrentGrab grab scaleProfiles mergeProfiles sources =
      { p := none, msrc := MappingSources.empty, save := false, count := 0, err := none }) ∧
    (∀ p m, kept ≠ [] →
      combineProfiles scaleProfiles mergeProfiles
        (kept.map (fun o => o.p)) (kept.map (fun o => o.msrc)) = .ok (p, m) →
      concurrentGrab grab scaleProfiles mergeProfiles sources =
        { p := some p, msrc := m, save := kept.any (fun o => o.remote),
          count := kept.length, err := none }) := by
  subst hkept
  constructor
  · intro h
    simp [concurrentGrab, h]
  · intro p m hne hcomb
    simp only [concurrentGrab]
    rw [List.isEmpty_eq_false_iff_exists_mem.mpr]
    · simp only [Bool.false_eq_true, if_false, hcomb, List.length_map]
    · obtain ⟨o, ho⟩ := List.exists_mem_of_ne_nil _ hne
      exact ⟨o.p, List.mem_map_of_mem _ ho⟩

theorem concurrentGrab_partition_witness :
    concurrentGrab grabRemote scaleOK mergeOK [taskA] =
      { p := some {}, msrc := combineSources [MappingSources.empty],
        save := true, count := 1, err := none } :=
  (concurrentGrab_partition grabRemote scaleOK mergeOK [taskA]
      [{ p := some {}, msrc := MappingSources.empty, remote := true, err := none }] rfl).2
    {} (combineSources [MappingSources.empty]) (List.cons_ne_nil _ _) rfl

/-- A MkdirAll capability that rejects exactly the directory /envdir. -/
def mkdirDenyEnv : String → Option Err :=
  fun dir => if dir = "/envdir" then some "permission denied" else none

/-- C6 counterexample: with PPROF_TMPDIR set to /envdir, setTmpDir returns
/envdir even though creating/using it fails while the HOME/pprof candidate
is usable — so the directory returned is not "the first candidate that can
be created/used", and no error is reported. The override is returned
without any usability check. -/
theorem setTmpDir_env_unchecked :
    setTmpDir "/envdir" "/home/u" "/tmp" mkdirDenyEnv = .ok "/envdir" ∧
    mkdirDenyEnv "/envdir" = some "permission denied" ∧
    mkdirDenyEnv ("/home/u" ++ "/pprof") = none := by
  refine ⟨?_, by decide, by decide⟩
  simp [setTmpDir]

/-- C6 amended: the environment override, when set, is returned
unconditionally and without a usability check; otherwise the first of
HOME/pprof and the system temp directory whose creation succeeds is
returned, and an error results only when the override is unset and both of
those candidates fail. -/
theorem setTmpDir_resolution (envTmp home osTmp : String)
    (mkdirAll : String → Option Err) :
    (envTmp ≠ "" → setTmpDir envTmp home osTmp mkdirAll = .ok envTmp) ∧
    (envTmp = "" → mkdirAll (home ++ "/pprof") = none →
      setTmpDir envTmp home osTmp mkdirAll = .ok (home ++ "/pprof")) ∧
    (∀ e, envTmp = "" → mkdirAll (home ++ "/pprof") = some e →
      mkdirAll osTmp = none →
      setTmpDir envTmp home osTmp mkdirAll = .ok osTmp) ∧
    (∀ e1 e2, envTmp = "" → mkdirAll (home ++ "/pprof") = some e1 →
      mkdirAll osTmp = some e2 →
      setTmpDir envTmp home osTmp mkdirAll = .error "failed to identify temp dir") := by
  refine ⟨fun h => by simp [setTmpDir, h], fun h h1 => ?_, fun e h h1 h2 => ?_,
    fun e1 e2 h h1 h2 => ?_⟩
  · simp [setTmpDir, tryTmpDirs, h, h1]
  · simp only [setTmpDir, h, ne_eq, not_true_eq_false, if_false, tryTmpDirs, h1, h2]
  · simp only [setTmpDir, h, ne_eq, not_true_eq_false, if_false, tryTmpDirs, h1, h2]

theorem setTmpDir_resolution_witness :
    setTmpDir "" "/home/u" "/tmp" (fun _ => some "read-only fs") =
      .error "failed to identify temp dir" :=
  (setTmpDir_resolution "" "/home/u" "/tmp" (fun _ => some "read-only fs")).2.2.2
    "read-only fs" "read-only fs" rfl rfl rfl

/-- C10: unsourceMappings clears a mapping's File exactly when the mapping
has no build ID and File parses as an absolute URL (scheme non-empty);
every other mapping is returned unchanged, the mapping list keeps its
order, and the rest of the profile is untouched. -/
theorem unsourceMappings_frame (urlParse : String → Option GoURL)
    (p : Profile) (m : Mapping) :
    ((m.buildID ≠ "" ∨ ∀ u, urlParse m.file = some u → u.scheme = "") →
      unsourceMapping urlParse m = m) ∧
    (∀ u, m.buildID = "" → urlParse m.file = some u → u.scheme ≠ "" →
      unsourceMapping urlParse m = { m with file := "" }) ∧
    (unsourceMappings urlParse p).mapping = p.mapping.map (unsourceMapping urlParse) ∧
    (unsourceMappings urlParse p).sampleType = p.sampleType := by
  refine ⟨?_, ?_, rfl, rfl⟩
  · intro h
    unfold unsourceMapping
    rcases h with h | h
    · rw [if_neg (by simpa using h)]
    · by_cases hb : m.buildID = ""
      · rw [if_pos hb]
        cases hu : urlParse m.file with
        | none => rfl
        | some u => simp [h u hu]
      · rw [if_neg hb]
  · intro u hb hu hs
    unfold unsourceMapping
    rw [if_pos hb, hu]
    simp [hs]

/-- A url.Parse capability recognising one absolute URL. -/
def parseOneURL : String → Option GoURL :=
  fun s => if s = "http://x/lib.so" then some { scheme := "http", host := "x" } else none

theorem unsourceMappings_frame_witness :
    unsourceMapping parseOneURL { file := "http://x/lib.so" } =
      { ({ file := "http://x/lib.so" } : Mapping) with file := "" } :=
  (unsourceMappings_frame parseOneURL {} { file := "http://x/lib.so" }).2.1
    { scheme := "http", host := "x" } rfl (by decide) (by decide)

/-- An injected fetcher that reports an error. -/
def fetcherErr : String → Int → Int → Option Profile × String × Option Err :=
  fun _ _ _ => (none, "", some "fetcher exploded")

/-- An injected fetcher that returns neither a profile nor an error. -/
def fetcherNil : String → Int → Int → Option Profile × String × Option Err :=
  fun _ _ _ => (none, "", none)

/-- A built-in fetch capability that always succeeds with a local profile. -/
def fetchLocalOK : String → Int → Int → Except Err (Profile × String) :=
  fun _ _ _ => .ok ({}, "")

/-- grabProfile capabilities with an erroring injected fetcher over a
succeeding built-in resolver. -/
def gdFetcherErr : GrabDeps :=
  { fetcher := some fetcherErr,
    fetchFn := fetchLocalOK,
    checkValid := fun _ => none,
    scaleBy := fun _ p => p,
    loc := locCE }

/-- grabProfile capabilities whose injected fetcher returns no profile and
no error. -/
def gdFetcherNil : GrabDeps := { gdFetcherErr with fetcher := some fetcherNil }

/-- C1 counterexample: with a fetcher that reports an error while the
built-in resolver would succeed, grabProfile fails the task (error set,
no profile kept) and never consults the built-in resolver — the same
capabilities with the fetcher removed succeed. -/
theorem grabProfile_no_fallback_on_fetcher_error :
    (grabProfile gdFetcherErr {} "http://h/p" 1).err = some "fetcher exploded" ∧
    (grabProfile gdFetcherErr {} "http://h/p" 1).p = none ∧
    gdFetcherErr.fetchFn "http://h/p" 0 0 = .ok ({}, "") ∧
    (grabProfile { gdFetcherErr with fetcher := none } {} "http://h/p" 1).err = none :=
  ⟨rfl, rfl, rfl, rfl⟩

/-- C1 amended: the fall-back to the built-in resolver happens only when
the injected fetcher returns no error and a nil profile (then the result
is exactly that of running without a fetcher); when the fetcher reports
an error, grabProfile fails the task with that error immediately. -/
theorem grabProfile_fallback (d : GrabDeps) (s : SourceCfg)
    (source : String) (scale : Int)
    (f : String → Int → Int → Option Profile × String × Option Err)
    (hf : d.fetcher = some f) :
    (∀ p0 src0 e, f source (s.seconds * second) (s.timeout * second) = (p0, src0, some e) →
      grabProfile d s source scale =
        { p := p0, msrc := MappingSources.empty, remote := false, err := some e }) ∧
    (∀ src0, f source (s.seconds * second) (s.timeout * second) = (none, src0, none) →
      grabProfile d s source scale =
        grabProfile { d with fetcher := none } s source scale) := by
  constructor
  · intro p0 src0 e hres
    simp only [grabProfile, hf, hres]
  · intro src0 hres
    simp only [grabProfile, hf, hres]

theorem grabProfile_fallback_witness :
    grabProfile gdFetcherNil {} "http://h/p" 1 =
      grabProfile { gdFetcherNil with fetcher := none } {} "http://h/p" 1 :=
  (grabProfile_fallback gdFetcherNil {} "http://h/p" 1 fetcherNil rfl).2 "" rfl

/-- C3: a failure of the merge between the running aggregate and a chunk's
result makes the coordinator loop return immediately with a nil profile,
nil provenance map, false remote flag, zero count and the merge error,
whatever chunks remain — and chunkedGrab is exactly this loop, seeded
empty, over the chunk decomposition, with concurrentGrab as the per-chunk
fetch and combineProfiles as the merge. -/
theorem chunkedGrab_merge_error_aborts
    (conc : List ProfileSource → GrabResult)
    (combine : List (Option Profile) → List MappingSources →
      Except Err (Profile × MappingSources))
    (grab : ProfileSource → FetchOut)
    (scaleProfiles : List (Option Profile) → Option Err)
    (mergeProfiles : List (Option Profile) → Except Err Profile) :
    (∀ (acc : ChunkAcc) (p0 : Profile) (c : List ProfileSource)
        (rest : List (List ProfileSource)) (r : GrabResult) (chunkP : Profile) (e : Err),
      acc.p = some p0 → conc c = r → r.err = none → r.p = some chunkP →
      combine [some p0, some chunkP] [acc.msrc, r.msrc] = .error e →
      chunkedLoop conc combine acc (c :: rest) =
        { p := none, msrc := MappingSources.empty, save := false, count := 0,
          err := some e }) ∧
    (∀ sources, chunkedGrab grab scaleProfiles mergeProfiles sources =
      chunkedLoop (concurrentGrab grab scaleProfiles mergeProfiles)
        (combineProfiles scaleProfiles mergeProfiles)
        ⟨none, MappingSources.empty, false, 0⟩ (chunks sources)) := by
  constructor
  · intro acc p0 c rest r chunkP e haccp hconc herr hp hcomb
    simp only [chunkedLoop, hconc, herr, hp, haccp, hcomb]
  · intro sources
    rfl

/-- A per-chunk fetch whose every chunk succeeds with one local profile. -/
def concOne : List ProfileSource → GrabResult :=
  fun _ =>
    { p := some {}, msrc := MappingSources.empty, save := false, count := 1, err := none }

/-- The result concOne produces for any chunk. -/
def grOne : GrabResult :=
  { p := some {}, msrc := MappingSources.empty, save := false, count := 1, err := none }

/-- A combiner that rejects every merge. -/
def combineBad : List (Option Profile) → List MappingSources →
    Except Err (Profile × MappingSources) :=
  fun _ _ => .error "incompatible sample types"

theorem chunkedGrab_merge_error_aborts_witness :
    chunkedLoop concOne combineBad ⟨some {}, MappingSources.empty, false, 1⟩
        [[taskA], [taskA]] =
      { p := none, msrc := MappingSources.empty, save := false, count := 0,
        err := some "incompatible sample types" } :=
  (chunkedGrab_merge_error_aborts concOne combineBad grabOK scaleOK mergeOK).1
    ⟨some {}, MappingSources.empty, false, 1⟩ {} [taskA] [[taskA]] grOne
    {} "incompatible sample types" rfl rfl rfl rfl rfl

/-- grabProfile capabilities in which every retrieval fails. -/
def gdAllFail : GrabDeps :=
  { fetcher := none,
    fetchFn := fun _ _ _ => .error "connection refused",
    checkValid := fun _ => none,
    scaleBy := fun _ p => p,
    loc := locCE }

/-- fetchProfiles capabilities over gdAllFail, with benign collaborators. -/
def fpdAllFail : FetchProfilesDeps :=
  { gd := gdAllFail,
    scaleProfiles := scaleOK,
    mergeProfiles := mergeOK,
    symbolize := fun _ _ p => .ok p,
    removeUninteresting := fun p => p,
    urlParse := fun _ => none,
    envTmp := "",
    home := "/home/u",
    osTmp := "/tmp",
    mkdirAll := fun _ => none,
    newTemp := fun _ _ _ => .error "no temp file",
    writeProfile := fun _ _ => none }

/-- A configuration with a single numerator source. -/
def cfgOne : SourceCfg := { sources := ["http://h/p"] }

/-- C2: when the chunked grab reports no error and a zero success count,
fetchProfiles returns no profile and the "failed to fetch any profiles"
error. -/
theorem fetchProfiles_no_sources (d : FetchProfilesDeps) (s : SourceCfg)
    (r : GrabResult)
    (hr : chunkedGrab (fun ps => grabProfile d.gd s ps.addr ps.scale)
      d.scaleProfiles d.mergeProfiles (makeSources s) = r)
    (herr : r.err = none) (hcnt : r.count = 0) :
    fetchProfiles d s = .error "failed to fetch any profiles" := by
  simp only [fetchProfiles, hr, herr, hcnt, if_pos]

theorem fetchProfiles_no_sources_witness :
    fetchProfiles fpdAllFail cfgOne = .error "failed to fetch any profiles" := by
  have hch : chunks (makeSources cfgOne) = [makeSources cfgOne] :=
    chunks_short _ (by decide) (by decide)
  have hr : chunkedGrab (fun ps => grabProfile fpdAllFail.gd cfgOne ps.addr ps.scale)
      fpdAllFail.scaleProfiles fpdAllFail.mergeProfiles (makeSources cfgOne) =
      { p := none, msrc := MappingSources.empty, save := false, count := 0,
        err := none } := by
    unfold chunkedGrab
    rw [hch]
    rfl
  exact fetchProfiles_no_sources fpdAllFail cfgOne _ hr rfl rfl

/-- C5: for a recognised HTTP source with no caller-supplied timeout
(timeout at most 0), the retrieval timeout adjustURL computes is 1.5 times
the duration when the duration is positive (stated as 2t = 3d; durations
are whole numbers of seconds, hence even nanosecond counts), 60 seconds
when the duration is 0 and the URL carries no usable seconds parameter,
and 1.5 times the derived duration when duration is 0 but the seconds
parameter parses to a positive count; the httpGet wrapper then adds the
fixed 5-second network-level grace margin. -/
theorem adjustURL_timeout (urlParse : String → Option GoURL)
    (urlToString : GoURL → String) (parseInt32 : String → Option Int)
    (source : String) (duration timeout : Int) (u : GoURL)
    (hu : urlParse source = some u) (hhost : u.host ≠ "") (ht : timeout ≤ 0) :
    (0 < duration → 2 ∣ duration →
      2 * (adjustURL urlParse urlToString parseInt32 source duration timeout).2 =
        3 * duration) ∧
    (duration = 0 → u.secondsParam = "" →
      (adjustURL urlParse urlToString parseInt32 source duration timeout).2 =
        60 * second) ∧
    (∀ us, duration = 0 → u.secondsParam ≠ "" → parseInt32 u.secondsParam = some us →
      0 < us →
      2 * (adjustURL urlParse urlToString parseInt32 source duration timeout).2 =
        3 * (us * second)) ∧
    (∀ t, httpGetHeaderTimeout t = t + 5 * second) := by
  refine ⟨fun hd hdvd => ?_, fun hd hsp => ?_, fun us hd hsp hparse hus => ?_,
    fun t => rfl⟩
  · have hval : (adjustURL urlParse urlToString parseInt32 source duration timeout).2 =
        duration + duration / 2 := by
      simp [adjustURL, hu, hhost, ht, hd]
    rw [hval]
    omega
  · subst hd
    simp [adjustURL, hu, hhost, ht, hsp]
  · subst hd
    have hpos : 0 < us * second := by
      have hs : (0 : Int) < second := by norm_num [second]
      exact mul_pos hus hs
    have hval : (adjustURL urlParse urlToString parseInt32 source 0 timeout).2 =
        us * second + us * second / 2 := by
      simp [adjustURL, hu, hhost, ht, hsp, hparse, hpos]
    rw [hval]
    simp only [second]
    omega

/-- A url.Parse capability recognising one HTTP address. -/
def parseHP : String → Option GoURL :=
  fun s => if s = "http://h/p" then some { scheme := "http", host := "h" } else none

/-- A u.String() rendering capability. -/
def urlToStr : GoURL → String := fun u => u.scheme ++ "://" ++ u.host

/-- A ParseInt capability that accepts nothing. -/
def parseIntNone : String → Option Int := fun _ => none

theorem adjustURL_timeout_witness :
    2 * (adjustURL parseHP urlToStr parseIntNone "http://h/p" (30 * second) 0).2 =
      3 * (30 * second) :=
  (adjustURL_timeout parseHP urlToStr parseIntNone "http://h/p" (30 * second) 0
      { scheme := "http", host := "h" } (by decide) (by decide) (by decide)).1
    (by norm_num [second]) ⟨15 * second, by ring⟩

/-- C7: for a mapping whose declared build identity (after the first-mapping
overrides) is non-empty, the binary locator keeps the build identity, and
either leaves the file untouched or rewrites it to a candidate whose
embedded build identity equals the declared one — a mismatching candidate
is never accepted; when no candidate is accepted the mapping is returned
exactly as it stood after the overrides; and locateBinaries is this
per-mapping search applied at every index. -/
theorem locateBinaries_no_mismatch (d : LocateDeps) (s : SourceCfg) (p : Profile)
    (isFirst : Bool) (m m2 : Mapping) (hm2 : m2 = applyOverrides isFirst s m)
    (hbid : m2.buildID ≠ "") :
    (locateMapping d s isFirst m).buildID = m2.buildID ∧
    ((locateMapping d s isFirst m).file = m2.file ∨
      ∃ f, d.objOpen (locateMapping d s isFirst m).file m2.start m2.limit m2.offset =
          some f ∧ f.buildID = m2.buildID) ∧
    (searchCandidates d m2 (d.searchPaths.flatMap fun path =>
        candidateNames d path m2 (if m2.file ≠ "" then d.basef m2.file else "")) = none →
      locateMapping d s isFirst m = m2) ∧
    (locateBinaries d s p).mapping =
      p.mapping.mapIdx (fun i mp => locateMapping d s (i == 0) mp) := by
  subst hm2
  have hloc : locateMapping d s isFirst m =
      match searchCandidates d (applyOverrides isFirst s m)
        (d.searchPaths.flatMap fun path =>
          candidateNames d path (applyOverrides isFirst s m)
            (if (applyOverrides isFirst s m).file ≠ ""
              then d.basef (applyOverrides isFirst s m).file else "")) with
      | some name => { applyOverrides isFirst s m with file := name }
      | none => applyOverrides isFirst s m := rfl
  cases hsr : searchCandidates d (applyOverrides isFirst s m)
      (d.searchPaths.flatMap fun path =>
        candidateNames d path (applyOverrides isFirst s m)
          (if (applyOverrides isFirst s m).file ≠ ""
            then d.basef (applyOverrides isFirst s m).file else "")) with
  | none =>
    rw [hsr] at hloc
    dsimp only at hloc
    exact ⟨by rw [hloc], Or.inl (by rw [hloc]), fun _ => by rw [hloc], rfl⟩
  | some name =>
    rw [hsr] at hloc
    dsimp only at hloc
    obtain ⟨f, hopen, hmatch⟩ := searchCandidates_accepts_matching d _ _ name hsr
    refine ⟨by rw [hloc], Or.inr ⟨f, ?_, hmatch hbid⟩, fun hnone => ?_, rfl⟩
    · rw [hloc]
      exact hopen
    · exact absurd hnone (by simp)

/-- A first-mapping override configuration (none set). -/
def cfgPlain : SourceCfg := {}

/-- A mapping declaring the build identity bid. -/
def mapBid : Mapping := { file := "bin", buildID := "bid" }

theorem locateBinaries_no_mismatch_witness :
    (locateMapping locCE cfgPlain false mapBid).buildID = mapBid.buildID :=
  (locateBinaries_no_mismatch locCE cfgPlain {} false mapBid mapBid rfl (by decide)).1

/-- C8: chunkedGrab splits a 65-task list into one chunk of chunkSize = 64
tasks followed by one chunk of 1 task, processed in that order, and — when
both chunks succeed and their merge succeeds — returns the merged result
with the success counts of the two chunks summed. -/
theorem chunkedGrab_chunk_boundary (grab : ProfileSource → FetchOut)
    (scaleProfiles : List (Option Profile) → Option Err)
    (mergeProfiles : List (Option Profile) → Except Err Profile)
    (tasks : List ProfileSource) (h65 : tasks.length = 65)
    (p1 p2 pm : Profile) (m1 m2 mm : MappingSources) (s1 s2 : Bool) (n1 n2 : Nat)
    (hc1 : concurrentGrab grab scaleProfiles mergeProfiles (tasks.take chunkSize) =
      { p := some p1, msrc := m1, save := s1, count := n1, err := none })
    (hc2 : concurrentGrab grab scaleProfiles mergeProfiles (tasks.drop chunkSize) =
      { p := some p2, msrc := m2, save := s2, count := n2, err := none })
    (hcomb : combineProfiles scaleProfiles mergeProfiles [some p1, some p2] [m1, m2] =
      .ok (pm, mm)) :
    chunkSize = 64 ∧
    chunks tasks = [tasks.take chunkSize, tasks.drop chunkSize] ∧
    chunkedGrab grab scaleProfiles mergeProfiles tasks =
      { p := some pm, msrc := mm, save := s1 || s2, count := n1 + n2, err := none } := by
  have hch : chunks tasks = [tasks.take chunkSize, tasks.drop chunkSize] := by
    cases tasks with
    | nil => simp at h65
    | cons t rest =>
      rw [chunks_cons]
      have hlen : ((t :: rest).drop chunkSize).length = 1 := by
        rw [List.length_drop, h65]
        decide
      have hne : (t :: rest).drop chunkSize ≠ [] := by
        intro hnil
        rw [hnil] at hlen
        simp at hlen
      rw [chunks_short _ hne (by rw [hlen]; decide)]
  refine ⟨rfl, hch, ?_⟩
  unfold chunkedGrab
  rw [hch]
  simp only [chunkedLoop, hc1, hc2, hcomb]

/-- The provenance maps of 64 locally fetched fragments. -/
def msrcs64 : List MappingSources := List.replicate 64 MappingSources.empty

/-- The combined provenance of a 64-task chunk of local fetches. -/
def m64 : MappingSources := combineSources msrcs64

/-- The combined provenance of a 1-task chunk of local fetches. -/
def mOne : MappingSources := combineSources (List.replicate 1 MappingSources.empty)

theorem chunkedGrab_chunk_boundary_witness :
    chunkSize = 64 ∧
    chunks tasks65 = [tasks65.take chunkSize, tasks65.drop chunkSize] ∧
    chunkedGrab grabOK scaleOK mergeOK tasks65 =
      { p := some {}, msrc := combineSources [m64, mOne], save := false || false,
        count := 64 + 1, err := none } :=
  chunkedGrab_chunk_boundary grabOK scaleOK mergeOK tasks65 (by decide)
    {} {} {} m64 mOne (combineSources [m64, mOne]) false false 64 1 rfl rfl rfl

end PprofFetch
